import Mathlib

/-!
Shallow embedding of `src/objects.py` (task-maestro): the in-memory task /
project / database model and its JSON persistence layer.

Modelling conventions
- `datetime` values are modelled as epoch seconds (`Int`); `timedelta` as a
  number of seconds (`Int`).  `datetime + timedelta` is integer addition and
  `<=` is integer order, exactly mirroring the source's only uses of these
  types.  `time_to_str` renders the integer in decimal; the source renders
  "%Y-%m-%d %H:%M:%S".  Both renderings are injective and no claim inspects
  the text of a rendered timestamp, only where it flows.
- Python is dynamically typed; after `DataBase.load`, several Task/Project
  fields hold plain strings where freshly constructed objects hold
  `datetime`/`Status`/Task references.  Fields that can hold either are sum
  types (`TimeVal`, `StatusVal`, `Task ⊕ String` for dependency entries).
- `datetime.now()` and `uuid.uuid4()` are nondeterministic inputs; the
  embedding threads them as explicit parameters (`now`, `genId`, `fresh`).
- Exceptions are explicit: a Python method that can raise returns its new
  state paired with an `Option PyExc` (or an `Except PyExc` result).  An
  uncaught exception appears as a `some`/`.error` value; Python raises
  before or after mutating `self`, and the returned state records exactly
  which mutations had already happened.
- `PyExc.modelGap` marks JSON shapes that the source's own `save` can never
  write (e.g. a numeric `title`); there the real program would store a value
  verbatim that is outside this typed embedding.  No theorem below depends
  on a `modelGap` branch.
-/

namespace Maestro

/-- `class Status(Enum)` from src/objects.py. -/
inductive Status where
  | ACTIVE
  | DEFERRED
  | COMPLETED
deriving DecidableEq

/-- `Status.value`: the string payload of each enum member. -/
def Status.value : Status → String
  | .ACTIVE => "ACTIVE"
  | .DEFERRED => "DEFERRED"
  | .COMPLETED => "COMPLETED"

/-- `datetime` as epoch seconds. -/
abbrev DateTime := Int

/-- `timedelta` as seconds. -/
abbrev Timedelta := Int

/-- A date-like field: a real `datetime` (left) or, after `load`, the string
the JSON file held (right). -/
abbrev TimeVal := DateTime ⊕ String

/-- Python truthiness of a date-like field value: `datetime` objects are
always truthy; a string is truthy iff nonempty. -/
def TimeVal.truthy : TimeVal → Bool
  | Sum.inl _ => true
  | Sum.inr s => !(s == "")

/-- A status field: a `Status` member (left) or, after `load`, the plain
string the JSON file held (right). -/
abbrev StatusVal := Status ⊕ String

/-- The `repeat_behavior` dict `{"interval": timedelta, "end_date": datetime|None}`. -/
structure RepeatBehavior where
  interval : Timedelta
  end_date : Option DateTime
deriving DecidableEq

/-- The Python exceptions the modelled code can raise.  `modelGap` is not a
Python exception: it marks inputs outside this embedding (see header). -/
inductive PyExc where
  | valueError (msg : String)
  | typeError (msg : String)
  | attributeError (msg : String)
  | modelGap (msg : String)
deriving DecidableEq

/-- The `ValueError` raised by `Task.complete` on incomplete dependencies
(the spec calls this kind `DependencyError`). -/
def DependencyError : PyExc :=
  .valueError "Cannot complete task with incomplete dependencies."

/-- The `ValueError` raised by `DataBase.add_project` on a duplicate title
(the spec calls this kind `DuplicateTitleError`).  The source interpolates
the title into the message. -/
def DuplicateTitleError (title : String) : PyExc :=
  .valueError ("A project with the title " ++ title ++ " already exists. Please use a unique title.")

/-- The `TypeError` from evaluating `None <= end_date` in `Task.complete`. -/
def NoneDatetimeCompareError : PyExc :=
  .typeError "le not supported between instances of NoneType and datetime.datetime"

/-- The `AttributeError` from reading `.completed` off a string dependency
entry (possible only on tasks reconstructed by `load`). -/
def StrCompletedAttributeError : PyExc :=
  .attributeError "str object has no attribute completed"

/-- The non-dependency fields of a `Task`. -/
structure TaskData where
  id : String
  title : String
  notes : Option String
  due_date : Option TimeVal
  completed : Bool
  status : StatusVal
  urgent : Bool
  repeat_behavior : Option RepeatBehavior
  created_at : TimeVal
  updated_at : TimeVal
deriving DecidableEq

/-- A `Task` object: its scalar fields plus `dependencies`.  A dependency
entry is a Task reference (left) or, after `load`, a raw id string (right).
(The inductive is split from `TaskData` only because the dependency list
makes `Task` recursive.) -/
inductive Task where
  | mk (data : TaskData) (dependencies : List (Task ⊕ String)) : Task

/-- Scalar fields of a task. -/
def Task.data : Task → TaskData
  | .mk d _ => d

/-- Dependency list of a task. -/
def Task.dependencies : Task → List (Task ⊕ String)
  | .mk _ ds => ds

/-- `Task.__init__`.  Parameters appear in the source's order; `genId` is the
`str(uuid.uuid4())` that would be drawn and `now` the `datetime.now()`.
Python truthiness: a supplied but empty `id` string or empty timestamp
string is falsy and is replaced by the default. -/
def Task.init (title : String) (notes : Option String) (due_date : Option TimeVal)
    (urgent : Bool) (repeat_behavior : Option RepeatBehavior)
    (dependencies : Option (List (Task ⊕ String)))
    (completed : Bool) (status : StatusVal)
    (created_at : Option TimeVal) (updated_at : Option TimeVal)
    (id : Option String) (genId : String) (now : DateTime) : Task :=
  Task.mk
    { id := match id with
        | some s => if s == "" then genId else s
        | none => genId
      title := title
      notes := notes
      due_date := due_date
      completed := completed
      status := status
      urgent := urgent
      repeat_behavior := repeat_behavior
      created_at := match created_at with
        | some v => if v.truthy then v else Sum.inl now
        | none => Sum.inl now
      updated_at := match updated_at with
        | some v => if v.truthy then v else Sum.inl now
        | none => Sum.inl now }
    (match dependencies with
      | some l => l
      | none => [])

/-- `all(dep.completed for dep in deps)` with Python's left-to-right
short-circuit evaluation; reading `.completed` off a raw id string raises
`AttributeError`. -/
def allCompleted : List (Task ⊕ String) → Except PyExc Bool
  | [] => .ok true
  | Sum.inl u :: rest => if u.data.completed then allCompleted rest else .ok false
  | Sum.inr _ :: _ => .error StrCompletedAttributeError

/-- `any(not dep.completed for dep in deps)`, same conventions. -/
def anyIncomplete : List (Task ⊕ String) → Except PyExc Bool
  | [] => .ok false
  | Sum.inl u :: rest => if u.data.completed then anyIncomplete rest else .ok true
  | Sum.inr _ :: _ => .error StrCompletedAttributeError

/-- The dependency gate at the top of `Task.complete`:
`if self.dependencies and not all(dep.completed for dep in self.dependencies)`. -/
def Task.completeCheck (t : Task) : Except PyExc Unit :=
  if t.dependencies.isEmpty then .ok () else
    match allCompleted t.dependencies with
    | .error e => .error e
    | .ok true => .ok ()
    | .ok false => .error DependencyError

/-- `next_due_date = self.due_date + self.repeat_behavior["interval"] if
self.due_date else None`: adding a timedelta to a loaded string due date is
a `TypeError`. -/
def nextDueDate (due_date : Option TimeVal) (interval : Timedelta) :
    Except PyExc (Option DateTime) :=
  match due_date with
  | none => .ok none
  | some v =>
    if v.truthy then
      match v with
      | Sum.inl d => .ok (some (d + interval))
      | Sum.inr _ => .error (.typeError "unsupported operand types for add: str and timedelta")
    else .ok none

/-- The repeat-behavior evaluation of `Task.complete` (everything after the
`self` mutations, none of which touch the fields read here): `None` when no
recurrence applies, a fresh follow-up `Task` when it does. -/
def Task.completeOutcome (t : Task) (now : DateTime) (genId : String) :
    Except PyExc (Option Task) :=
  match t.data.repeat_behavior with
  | none => .ok none
  | some rb =>
    match nextDueDate t.data.due_date rb.interval with
    | .error e => .error e
    | .ok nd =>
      let mkNew : Task := Task.init t.data.title t.data.notes (nd.map Sum.inl)
        t.data.urgent (some rb) (some []) false (Sum.inl Status.ACTIVE)
        none none none genId now
      match rb.end_date with
      | none => .ok (some mkNew)
      | some ed =>
        match nd with
        | none => .error NoneDatetimeCompareError
        | some d =>
          if d ≤ ed then .ok (some mkNew) else .ok none

/-- `Task.complete` after the dependency gate has passed: `self` is mutated
(every later path, success or exception, leaves it in this state), then the
repeat behavior decides the outcome. -/
def Task.completeBody (t : Task) (now : DateTime) (genId : String) :
    Task × Except PyExc (Option Task) :=
  (Task.mk
    { t.data with completed := true, status := Sum.inl Status.COMPLETED,
                  updated_at := Sum.inl now }
    t.dependencies,
   t.completeOutcome now genId)

/-- `Task.complete`.  Returns the new state of `self` together with the
method's outcome: `.ok (some t)` is a returned recurrence task, `.ok none`
is `return None`, `.error e` an escaped exception.  The returned state shows
which mutations had happened by the time of an exception: the dependency
check raises before any mutation; the `None <= end_date` comparison raises
after `completed/status/updated_at` were already set. -/
def Task.complete (t : Task) (now : DateTime) (genId : String) :
    Task × Except PyExc (Option Task) :=
  match t.completeCheck with
  | .error e => (t, .error e)
  | .ok _ => t.completeBody now genId

/-- `Task.defer`.  The `any(...)` check runs before any mutation, so an
`AttributeError` (string dependency entry) leaves the task unchanged. -/
def Task.defer (t : Task) (now : DateTime) : Task × Option PyExc :=
  match anyIncomplete t.dependencies with
  | .error e => (t, some e)
  | .ok b =>
    (Task.mk
      { t.data with
          status := if b then Sum.inl Status.DEFERRED else Sum.inl Status.ACTIVE,
          updated_at := Sum.inl now }
      t.dependencies, none)

/-- `time_to_str`: renders a datetime (see header note on the format). -/
def time_to_str (dt : DateTime) : String := toString dt

/-- `convert_to_str` from the source.  Its `else: raise ValueError` branch is
unreachable in this embedding: a `TimeVal` is always a datetime or a string,
the only two accepted types. -/
def convert_to_str : TimeVal → String
  | Sum.inl d => time_to_str d
  | Sum.inr s => s

/-- The Python values `to_dict` can place in a record: what `json.dump` will
then be fed. -/
inductive PyVal where
  | none
  | bool (b : Bool)
  | str (s : String)
  | timedelta (seconds : Timedelta)
  | datetime (t : DateTime)
  | list (xs : List PyVal)
  | dict (fields : List (String × PyVal))

/-- `self.status.value`: on a plain-string status (a loaded task) this is an
`AttributeError`. -/
def statusAttrValue : StatusVal → Except PyExc String
  | Sum.inl s => .ok s.value
  | Sum.inr _ => .error (.attributeError "str object has no attribute value")

/-- `[x.id for x in entries]` over a dependency/membership list, left to
right; reading `.id` off a raw id string raises `AttributeError`. -/
def depIds : List (Task ⊕ String) → Except PyExc (List String)
  | [] => .ok []
  | Sum.inl u :: rest =>
    (match depIds rest with
      | .ok ids => .ok (u.data.id :: ids)
      | .error e => .error e)
  | Sum.inr _ :: _ => .error (.attributeError "str object has no attribute id")

/-- The `repeat_behavior` value as `to_dict` emits it: verbatim.  A set rule
is a dict still holding a raw `timedelta` (and possibly a raw `datetime`). -/
def rbToPyVal : Option RepeatBehavior → PyVal
  | none => .none
  | some rb => .dict
      [("interval", .timedelta rb.interval),
       ("end_date", match rb.end_date with
          | none => .none
          | some d => .datetime d)]

/-- `Task.to_dict`.  The two fallible reads are `self.status.value` and the
dependency id comprehension, evaluated in the source's field order. -/
def Task.to_dict (t : Task) : Except PyExc (List (String × PyVal)) :=
  match statusAttrValue t.data.status with
  | .error e => .error e
  | .ok sv =>
    match depIds t.dependencies with
    | .error e => .error e
    | .ok ids => .ok
      [("id", .str t.data.id),
       ("title", .str t.data.title),
       ("notes", match t.data.notes with
          | none => .none
          | some s => .str s),
       ("due_date", match t.data.due_date with
          | some v => if v.truthy then .str (convert_to_str v) else .none
          | none => .none),
       ("completed", .bool t.data.completed),
       ("status", .str sv),
       ("urgent", .bool t.data.urgent),
       ("repeat_behavior", rbToPyVal t.data.repeat_behavior),
       ("dependencies", .list (ids.map .str)),
       ("created_at", .str (convert_to_str t.data.created_at)),
       ("updated_at", .str (convert_to_str t.data.updated_at))]

/-- A `Project` object.  A `tasks` entry is a Task reference (left) or, after
`load`, a raw id string (right). -/
structure Project where
  id : String
  title : String
  description : Option String
  tasks : List (Task ⊕ String)
  completed : Bool
  created_at : TimeVal
  updated_at : TimeVal

/-- `Project.__init__`, same conventions as `Task.init`.  (`completed if
completed else False` is the identity on booleans.) -/
def Project.init (title : String) (description : Option String)
    (tasks : Option (List (Task ⊕ String))) (id : Option String)
    (completed : Bool) (created_at : Option TimeVal) (updated_at : Option TimeVal)
    (genId : String) (now : DateTime) : Project :=
  { id := match id with
      | some s => if s == "" then genId else s
      | none => genId
    title := title
    description := description
    tasks := match tasks with
      | some l => l
      | none => []
    completed := completed
    created_at := match created_at with
      | some v => if v.truthy then v else Sum.inl now
      | none => Sum.inl now
    updated_at := match updated_at with
      | some v => if v.truthy then v else Sum.inl now
      | none => Sum.inl now }

/-- `Project.add_task`: appends and refreshes `updated_at`; no duplicate
check. -/
def Project.add_task (p : Project) (task : Task) (now : DateTime) : Project :=
  { p with tasks := p.tasks ++ [Sum.inl task], updated_at := Sum.inl now }

/-- `Project.to_dict`. -/
def Project.to_dict (p : Project) : Except PyExc (List (String × PyVal)) :=
  match depIds p.tasks with
  | .error e => .error e
  | .ok ids => .ok
    [("id", .str p.id),
     ("title", .str p.title),
     ("description", match p.description with
        | none => .none
        | some s => .str s),
     ("tasks", .list (ids.map .str)),
     ("completed", .bool p.completed),
     ("created_at", .str (convert_to_str p.created_at)),
     ("updated_at", .str (convert_to_str p.updated_at))]

/-- The `DataBase` aggregate.  `self.inbox` aliases the `Project` object the
constructor appends first; no operation removes or reorders projects, so the
inbox is always `projects[0]` (its mutations are modelled in place there). -/
structure DataBase where
  tasks : List Task
  projects : List Project

/-- `DataBase.__init__`: seeds the Inbox project. -/
def DataBase.init (inboxId : String) (now : DateTime) : DataBase :=
  { tasks := [],
    projects := [Project.init "Inbox" (some "Default project for unassigned tasks.")
      none none false none none inboxId now] }

/-- `DataBase.find_project_by_title`: first match or `None`. -/
def DataBase.find_project_by_title (db : DataBase) (title : String) : Option Project :=
  db.projects.find? (fun p => p.title == title)

/-- `DataBase.find_project_by_id`: first match or `None`. -/
def DataBase.find_project_by_id (db : DataBase) (project_id : String) : Option Project :=
  db.projects.find? (fun p => p.id == project_id)

/-- Mutate the first project with the given title (the object
`find_project_by_title` returned a reference to). -/
def updateFirstTitled (ps : List Project) (title : String) (f : Project → Project) :
    List Project :=
  match ps with
  | [] => []
  | p :: rest =>
    if p.title == title then f p :: rest else p :: updateFirstTitled rest title f

/-- Mutate the Inbox object, i.e. `projects[0]`. -/
def DataBase.ontoInbox (db : DataBase) (task : Task) (now : DateTime) : DataBase :=
  { db with projects := match db.projects with
      | [] => []
      | inbox :: rest => inbox.add_task task now :: rest }

/-- `DataBase.add_task`: always appends to `tasks`; then routes to the named
project, or (warning printed) to the Inbox if the title is missing, falsy
(`""`) or absent. -/
def DataBase.add_task (db : DataBase) (task : Task) (project_title : Option String)
    (now : DateTime) : DataBase :=
  let db1 : DataBase := { db with tasks := db.tasks ++ [task] }
  match project_title with
  | some pt =>
    if pt == "" then db1.ontoInbox task now
    else
      match db1.find_project_by_title pt with
      | some _ =>
        { db1 with projects := updateFirstTitled db1.projects pt (fun p => p.add_task task now) }
      | none => db1.ontoInbox task now
  | none => db1.ontoInbox task now

/-- `DataBase.add_project`: `ValueError` on a case-sensitively duplicate
title (raised before any mutation), else append. -/
def DataBase.add_project (db : DataBase) (project : Project) :
    DataBase × Option PyExc :=
  if db.projects.any (fun proj => proj.title == project.title) then
    (db, some (DuplicateTitleError project.title))
  else
    ({ db with projects := db.projects ++ [project] }, none)

/-- JSON documents, as read back by `json.load`. -/
inductive Json where
  | null
  | bool (b : Bool)
  | str (s : String)
  | num (n : Int)
  | arr (xs : List Json)
  | obj (fields : List (String × Json))

mutual

/-- `json.dump`'s default encoder: `timedelta` and `datetime` objects are
not JSON serializable and raise `TypeError`. -/
def pyValToJson : PyVal → Except PyExc Json
  | .none => .ok .null
  | .bool b => .ok (.bool b)
  | .str s => .ok (.str s)
  | .timedelta _ => .error (.typeError "Object of type timedelta is not JSON serializable")
  | .datetime _ => .error (.typeError "Object of type datetime is not JSON serializable")
  | .list xs =>
    (match pyValListToJson xs with
      | .ok js => .ok (.arr js)
      | .error e => .error e)
  | .dict fs =>
    (match pyValFieldsToJson fs with
      | .ok js => .ok (.obj js)
      | .error e => .error e)

/-- Encode the elements of a list, left to right, first failure wins. -/
def pyValListToJson : List PyVal → Except PyExc (List Json)
  | [] => .ok []
  | v :: rest =>
    (match pyValToJson v with
      | .error e => .error e
      | .ok j =>
        match pyValListToJson rest with
        | .error e => .error e
        | .ok js => .ok (j :: js))

/-- Encode the fields of a dict, in insertion order. -/
def pyValFieldsToJson : List (String × PyVal) → Except PyExc (List (String × Json))
  | [] => .ok []
  | (k, v) :: rest =>
    (match pyValToJson v with
      | .error e => .error e
      | .ok j =>
        match pyValFieldsToJson rest with
        | .error e => .error e
        | .ok js => .ok ((k, j) :: js))

end

/-- `[task.to_dict() for task in self.tasks]`, left to right. -/
def tasksToDicts : List Task → Except PyExc (List PyVal)
  | [] => .ok []
  | t :: rest =>
    (match t.to_dict with
      | .error e => .error e
      | .ok d =>
        match tasksToDicts rest with
        | .error e => .error e
        | .ok ds => .ok (.dict d :: ds))

/-- `[project.to_dict() for project in self.projects]`. -/
def projectsToDicts : List Project → Except PyExc (List PyVal)
  | [] => .ok []
  | p :: rest =>
    (match p.to_dict with
      | .error e => .error e
      | .ok d =>
        match projectsToDicts rest with
        | .error e => .error e
        | .ok ds => .ok (.dict d :: ds))

/-- The content `save` writes to `tasks.json`: the `to_dict` list fed through
`json.dump`. -/
def tasksFileJson (ts : List Task) : Except PyExc Json :=
  match tasksToDicts ts with
  | .error e => .error e
  | .ok ds => pyValToJson (.list ds)

/-- The content `save` writes to `projects.json`. -/
def projectsFileJson (ps : List Project) : Except PyExc Json :=
  match projectsToDicts ps with
  | .error e => .error e
  | .ok ds => pyValToJson (.list ds)

/-- `DataBase.save`.  Returns the two file contents, or the exception that
escaped.  The source's `try` catches only `IOError`; serialization errors
(`to_dict`'s `AttributeError`s, `json.dump`'s `TypeError`) propagate to the
caller.  File-system writes are abstracted away, so no `IOError` arises
here; the tasks file is dumped first, matching the source's order. -/
def DataBase.save (db : DataBase) : Except PyExc (Json × Json) :=
  match tasksFileJson db.tasks with
  | .error e => .error e
  | .ok tj =>
    match projectsFileJson db.projects with
    | .error e => .error e
    | .ok pj => .ok (tj, pj)

/-- The outcome of `open` + `json.load` on one file: `missing` is an
`IOError` on open, `malformed` a `json.JSONDecodeError`, `ok` a parsed
document. -/
inductive FileRead where
  | missing
  | malformed
  | ok (j : Json)

/-- Key lookup in a parsed JSON object (`save` never writes duplicate keys). -/
def jLookup (fs : List (String × Json)) (k : String) : Option Json :=
  (fs.find? (fun kv => kv.fst == k)).map (fun kv => kv.snd)

/-- The keyword parameters `Task.__init__` accepts. -/
def taskKeys : List String :=
  ["title", "notes", "due_date", "urgent", "repeat_behavior", "dependencies",
   "completed", "status", "created_at", "updated_at", "id"]

/-- The keyword parameters `Project.__init__` accepts. -/
def projectKeys : List String :=
  ["title", "description", "tasks", "id", "completed", "created_at", "updated_at"]

/-- An optional-string keyword (e.g. `notes`, `id`): absent or `null` is
`None`, a JSON string is itself.  Other shapes never occur in `save` output
(header note on `modelGap`). -/
def parseOptStr : Option Json → Except PyExc (Option String)
  | none => .ok none
  | some .null => .ok none
  | some (.str s) => .ok (some s)
  | some _ => .error (.modelGap "field value shape outside the embedding")

/-- A date-like keyword (`due_date`, `created_at`, `updated_at`): a loaded
string stays a plain string. -/
def parseOptTimeVal : Option Json → Except PyExc (Option TimeVal)
  | none => .ok none
  | some .null => .ok none
  | some (.str s) => .ok (some (Sum.inr s))
  | some _ => .error (.modelGap "field value shape outside the embedding")

/-- A boolean keyword (`completed`, `urgent`) with its Python default. -/
def parseBool (dflt : Bool) : Option Json → Except PyExc Bool
  | none => .ok dflt
  | some (.bool b) => .ok b
  | some _ => .error (.modelGap "field value shape outside the embedding")

/-- The `status` keyword: a loaded string is stored verbatim as a plain
string, not converted back to a `Status` member; absent means the default
`Status.ACTIVE`. -/
def parseStatusVal : Option Json → Except PyExc StatusVal
  | none => .ok (Sum.inl Status.ACTIVE)
  | some (.str s) => .ok (Sum.inr s)
  | some _ => .error (.modelGap "field value shape outside the embedding")

/-- The `repeat_behavior` keyword: `save` can only ever write `null` here
(a set rule makes `save` raise first — see `pyValToJson`). -/
def parseRB : Option Json → Except PyExc (Option RepeatBehavior)
  | none => .ok none
  | some .null => .ok none
  | some _ => .error (.modelGap "repeat_behavior shape outside the embedding")

/-- Elements of a loaded `dependencies`/`tasks` array: raw id strings stored
verbatim (never resolved back to object references). -/
def parseIdList : List Json → Except PyExc (List (Task ⊕ String))
  | [] => .ok []
  | .str s :: rest =>
    (match parseIdList rest with
      | .ok l => .ok (Sum.inr s :: l)
      | .error e => .error e)
  | _ :: _ => .error (.modelGap "id list element shape outside the embedding")

/-- The `dependencies`/`tasks` keyword (absent and `null` are both falsy,
giving `[]`). -/
def parseDeps : Option Json → Except PyExc (List (Task ⊕ String))
  | none => .ok []
  | some .null => .ok []
  | some (.arr xs) => parseIdList xs
  | some _ => .error (.modelGap "dependency list shape outside the embedding")

/-- `Task(**record)`: keyword binding for one element of `tasks.json`.  A
non-mapping element or an unexpected/missing keyword is a `TypeError`, which
`load`'s `except (IOError, JSONDecodeError)` does not catch. -/
def taskFromJson (j : Json) (genId : String) (now : DateTime) : Except PyExc Task :=
  match j with
  | .obj fs =>
    if fs.all (fun kv => taskKeys.contains kv.fst) then
      match jLookup fs "title" with
      | none => .error (.typeError "Task.init missing required argument title")
      | some .null => .error (.modelGap "title value shape outside the embedding")
      | some (.str title) =>
        (match parseOptStr (jLookup fs "notes") with
        | .error e => .error e
        | .ok notes =>
        match parseOptTimeVal (jLookup fs "due_date") with
        | .error e => .error e
        | .ok due_date =>
        match parseBool false (jLookup fs "urgent") with
        | .error e => .error e
        | .ok urgent =>
        match parseRB (jLookup fs "repeat_behavior") with
        | .error e => .error e
        | .ok rb =>
        match parseDeps (jLookup fs "dependencies") with
        | .error e => .error e
        | .ok deps =>
        match parseBool false (jLookup fs "completed") with
        | .error e => .error e
        | .ok completed =>
        match parseStatusVal (jLookup fs "status") with
        | .error e => .error e
        | .ok status =>
        match parseOptTimeVal (jLookup fs "created_at") with
        | .error e => .error e
        | .ok created_at =>
        match parseOptTimeVal (jLookup fs "updated_at") with
        | .error e => .error e
        | .ok updated_at =>
        match parseOptStr (jLookup fs "id") with
        | .error e => .error e
        | .ok id =>
          .ok (Task.init title notes due_date urgent rb (some deps) completed status
            created_at updated_at id genId now))
      | some _ => .error (.modelGap "title value shape outside the embedding")
    else .error (.typeError "Task.init got an unexpected keyword argument")
  | _ => .error (.typeError "argument after a double star must be a mapping")

/-- `Project(**record)` for one element of `projects.json`. -/
def projectFromJson (j : Json) (genId : String) (now : DateTime) : Except PyExc Project :=
  match j with
  | .obj fs =>
    if fs.all (fun kv => projectKeys.contains kv.fst) then
      match jLookup fs "title" with
      | none => .error (.typeError "Project.init missing required argument title")
      | some .null => .error (.modelGap "title value shape outside the embedding")
      | some (.str title) =>
        (match parseOptStr (jLookup fs "description") with
        | .error e => .error e
        | .ok description =>
        match parseDeps (jLookup fs "tasks") with
        | .error e => .error e
        | .ok tasks =>
        match parseOptStr (jLookup fs "id") with
        | .error e => .error e
        | .ok id =>
        match parseBool false (jLookup fs "completed") with
        | .error e => .error e
        | .ok completed =>
        match parseOptTimeVal (jLookup fs "created_at") with
        | .error e => .error e
        | .ok created_at =>
        match parseOptTimeVal (jLookup fs "updated_at") with
        | .error e => .error e
        | .ok updated_at =>
          .ok (Project.init title description (some tasks) id completed
            created_at updated_at genId now))
      | some _ => .error (.modelGap "title value shape outside the embedding")
    else .error (.typeError "Project.init got an unexpected keyword argument")
  | _ => .error (.typeError "argument after a double star must be a mapping")

/-- The task-loading loop: `for task in tasks: self.add_task(Task(**task))`.
An exception from `Task(**task)` stops the loop but keeps the tasks already
added.  `fresh k` is the uuid the k-th constructor call would draw. -/
def DataBase.loadTaskRecords (db : DataBase) (xs : List Json) (fresh : Nat → String)
    (now : DateTime) (k : Nat) : DataBase × Option PyExc :=
  match xs with
  | [] => (db, none)
  | x :: rest =>
    match taskFromJson x (fresh k) now with
    | .error e => (db, some e)
    | .ok t => DataBase.loadTaskRecords (db.add_task t none now) rest fresh now (k + 1)

/-- The first `try` block of `load`: read failures (`IOError`,
`JSONDecodeError`) are caught and printed; anything else escapes.  A parsed
document that is not an array makes the `for` / `Task(**...)` machinery
raise `TypeError`. -/
def DataBase.loadTasksFile (db : DataBase) (tf : FileRead) (fresh : Nat → String)
    (now : DateTime) : DataBase × Option PyExc :=
  match tf with
  | .missing => (db, none)
  | .malformed => (db, none)
  | .ok (.arr xs) => db.loadTaskRecords xs fresh now 0
  | .ok _ => (db, some (.typeError "iterating a non-array document does not yield Task records"))

/-- The project-loading loop: `self.add_project(Project(**project))`; an
`add_project` `ValueError` (duplicate title) escapes and stops the loop. -/
def DataBase.loadProjectRecords (db : DataBase) (xs : List Json) (fresh : Nat → String)
    (now : DateTime) (k : Nat) : DataBase × Option PyExc :=
  match xs with
  | [] => (db, none)
  | x :: rest =>
    match projectFromJson x (fresh k) now with
    | .error e => (db, some e)
    | .ok p =>
      match db.add_project p with
      | (db2, some e) => (db2, some e)
      | (db2, none) => DataBase.loadProjectRecords db2 rest fresh now (k + 1)

/-- The second `try` block of `load`. -/
def DataBase.loadProjectsFile (db : DataBase) (pf : FileRead) (fresh : Nat → String)
    (now : DateTime) : DataBase × Option PyExc :=
  match pf with
  | .missing => (db, none)
  | .malformed => (db, none)
  | .ok (.arr xs) => db.loadProjectRecords xs fresh now 0
  | .ok _ => (db, some (.typeError "iterating a non-array document does not yield Project records"))

/-- `DataBase.load`: tasks file first; an exception escaping the first block
aborts `load` before the projects file is touched. -/
def DataBase.load (db : DataBase) (tf pf : FileRead) (fresh : Nat → String)
    (now : DateTime) : DataBase × Option PyExc :=
  match db.loadTasksFile tf fresh now with
  | (db1, some e) => (db1, some e)
  | (db1, none) => db1.loadProjectsFile pf fresh now

/-- The string a status field denotes: a member's `.value`, a plain string
itself. -/
def statusValStr : StatusVal → String
  | Sum.inl s => s.value
  | Sum.inr s => s

/-- Whether a status field is (the enum member) `COMPLETED`. -/
def statusIsCompletedB : StatusVal → Bool
  | Sum.inl Status.COMPLETED => true
  | _ => false

/-- The spec's consistency invariant between the stored `completed` boolean
and the `status` field: `completed == (status == COMPLETED)`. -/
def Task.invariant (t : Task) : Bool :=
  t.data.completed == statusIsCompletedB t.data.status

/-- The id / title / status observation the round-trip claim compares. -/
def Task.obs (t : Task) : String × String × StatusVal :=
  (t.data.id, t.data.title, t.data.status)

/-- What one round trip makes of a task's observation: id and title survive;
the status comes back as its plain string value. -/
def Task.loadedObs (t : Task) : String × String × StatusVal :=
  (t.data.id, t.data.title, Sum.inr (statusValStr t.data.status))

/-- An ordinary in-memory task, as every task built by the constructor and
never touched by `load` is: enum status, no recurrence rule pending
serialization, a nonempty id, and object dependency references. -/
def Task.wellFormed (t : Task) : Bool :=
  t.data.status.isLeft && t.data.repeat_behavior.isNone && !(t.data.id == "")
    && t.dependencies.all Sum.isLeft

/-- The boolean `defer` computes: is some dependency entry an incomplete
task object?  (On an all-object dependency list this is exactly the
short-circuit `any`.) -/
def hasIncompleteB (deps : List (Task ⊕ String)) : Bool :=
  deps.any (fun d => match d with
    | Sum.inl u => !u.data.completed
    | Sum.inr _ => false)

/-- The dependency ids as `to_dict` lists them, as a total function (equal
to `depIds` on all-object lists). -/
def depIdsOf (deps : List (Task ⊕ String)) : List String :=
  deps.map (fun d => match d with
    | Sum.inl u => u.data.id
    | Sum.inr s => s)

/-- The record `Task.to_dict` produces when its two fallible reads succeed
(an enum status, all-object dependencies). -/
def taskDictOf (t : Task) : List (String × PyVal) :=
  [("id", .str t.data.id),
   ("title", .str t.data.title),
   ("notes", match t.data.notes with
      | none => .none
      | some s => .str s),
   ("due_date", match t.data.due_date with
      | some v => if v.truthy then .str (convert_to_str v) else .none
      | none => .none),
   ("completed", .bool t.data.completed),
   ("status", .str (statusValStr t.data.status)),
   ("urgent", .bool t.data.urgent),
   ("repeat_behavior", rbToPyVal t.data.repeat_behavior),
   ("dependencies", .list ((depIdsOf t.dependencies).map .str)),
   ("created_at", .str (convert_to_str t.data.created_at)),
   ("updated_at", .str (convert_to_str t.data.updated_at))]

/-- The JSON object `json.dump` makes of `taskDictOf t` when the task has no
repeat behavior pending (otherwise the raw timedelta aborts the dump). -/
def taskJsonOf (t : Task) : Json :=
  .obj
    [("id", .str t.data.id),
     ("title", .str t.data.title),
     ("notes", match t.data.notes with
        | none => .null
        | some s => .str s),
     ("due_date", match t.data.due_date with
        | some v => if v.truthy then .str (convert_to_str v) else .null
        | none => .null),
     ("completed", .bool t.data.completed),
     ("status", .str (statusValStr t.data.status)),
     ("urgent", .bool t.data.urgent),
     ("repeat_behavior", .null),
     ("dependencies", .arr ((depIdsOf t.dependencies).map .str)),
     ("created_at", .str (convert_to_str t.data.created_at)),
     ("updated_at", .str (convert_to_str t.data.updated_at))]

/-- A concrete well-formed task for the round-trip instances. -/
def taskA : Task :=
  Task.init "Write report" (some "draft first") (some (Sum.inl 100)) false none
    none false (Sum.inl Status.ACTIVE) none none (some "t1") "unused-uuid" 0

/-- A second concrete task, completed, for the round-trip instances. -/
def taskB : Task :=
  Task.init "File taxes" none none true none none true (Sum.inl Status.COMPLETED)
    none none (some "t2") "unused-uuid" 0

/-- The concrete database the round-trip counterexample saves. -/
def dbC1 : DataBase :=
  ((DataBase.init "inbox1" 0).add_task taskA none 0).add_task taskB none 0

/-- The pair of file contents `dbC1.save` writes. -/
def savedC1 : Json × Json := dbC1.save.toOption.getD (Json.null, Json.null)

/-- A fresh database after loading `dbC1`'s files. -/
def loadedC1 : DataBase :=
  ((DataBase.init "inbox2" 1).load (.ok savedC1.1) (.ok savedC1.2) (fun _ => "u") 1).fst

/-- An empty database: even its own save output makes `load` raise. -/
def dbC2 : DataBase := DataBase.init "inbox1" 0

/-- The file contents `dbC2.save` writes. -/
def savedC2 : Json × Json := dbC2.save.toOption.getD (Json.null, Json.null)

/-- A completed task with no dependencies: deferring it breaks the
completed/status invariant. -/
def tC7 : Task :=
  Task.mk
    { id := "t7", title := "Done already", notes := none, due_date := none,
      completed := true, status := Sum.inl Status.COMPLETED, urgent := false,
      repeat_behavior := none, created_at := Sum.inl 0, updated_at := Sum.inl 0 }
    []

/-- A concrete weekly-recurring task with no end date. -/
def tWeeklyW : Task :=
  Task.mk
    { id := "t4", title := "weekly", notes := some "n",
      due_date := some (Sum.inl 10), completed := false,
      status := Sum.inl Status.ACTIVE, urgent := true,
      repeat_behavior := some { interval := 7, end_date := none },
      created_at := Sum.inl 0, updated_at := Sum.inl 0 }
    []

/-- A concrete recurring task whose next due date (17) is past its end
date (12). -/
def tEndingW : Task :=
  Task.mk
    { id := "t5", title := "ending", notes := none,
      due_date := some (Sum.inl 10), completed := false,
      status := Sum.inl Status.ACTIVE, urgent := false,
      repeat_behavior := some { interval := 7, end_date := some 12 },
      created_at := Sum.inl 0, updated_at := Sum.inl 0 }
    []

/-- A concrete recurring task with an end date but no due date. -/
def tNoDueW : Task :=
  Task.mk
    { id := "t9", title := "no due", notes := none, due_date := none,
      completed := false, status := Sum.inl Status.ACTIVE, urgent := false,
      repeat_behavior := some { interval := 7, end_date := some 12 },
      created_at := Sum.inl 0, updated_at := Sum.inl 0 }
    []

/-- A concrete project titled like the always-present Inbox. -/
def projInboxW : Project := Project.init "Inbox" none none none false none none "p2" 0

/-- A concrete project with a fresh title. -/
def projWorkW : Project := Project.init "Work" none none none false none none "p3" 0

/-- A concrete incomplete task, used as a dependency. -/
def depOpenW : Task :=
  Task.mk
    { id := "d2", title := "open dep", notes := none, due_date := none,
      completed := false, status := Sum.inl Status.ACTIVE, urgent := false,
      repeat_behavior := none, created_at := Sum.inl 0, updated_at := Sum.inl 0 }
    []

/-- A concrete task blocked on `depOpenW` (its first dependency, `tC7`, is
complete; its second is not). -/
def tBlockedW : Task :=
  Task.mk
    { id := "t3", title := "blocked", notes := none, due_date := none,
      completed := false, status := Sum.inl Status.ACTIVE, urgent := false,
      repeat_behavior := none, created_at := Sum.inl 0, updated_at := Sum.inl 0 }
    [Sum.inl tC7, Sum.inl depOpenW]

/-- A database holding one recurring task: its `repeat_behavior` still
contains a raw timedelta when `save` runs. -/
def dbC10 : DataBase := (DataBase.init "inbox1" 0).add_task tWeeklyW none 0

theorem allCompleted_false (deps : List (Task ⊕ String))
    (hobj : ∀ d ∈ deps, ∃ u, d = Sum.inl u)
    (hbad : ∃ u, Sum.inl u ∈ deps ∧ u.data.completed = false) :
    allCompleted deps = .ok false := by
  induction deps with
  | nil =>
    rcases hbad with ⟨u, hu, _⟩
    simp at hu
  | cons d rest ih =>
    rcases hobj d (by simp) with ⟨u, rfl⟩
    by_cases hc : u.data.completed
    · have hrest : ∃ v, Sum.inl v ∈ rest ∧ v.data.completed = false := by
        rcases hbad with ⟨v, hv, hvf⟩
        rcases List.mem_cons.mp hv with h | h
        · rw [Sum.inl.injEq] at h
          rw [h] at hvf
          rw [hvf] at hc
          exact absurd hc (by simp)
        · exact ⟨v, h, hvf⟩
      simpa [allCompleted, hc] using
        ih (fun d hd => hobj d (List.mem_cons_of_mem _ hd)) hrest
    · simp [allCompleted, hc]

theorem allCompleted_true (deps : List (Task ⊕ String))
    (h : ∀ d ∈ deps, ∃ u, d = Sum.inl u ∧ u.data.completed = true) :
    allCompleted deps = .ok true := by
  induction deps with
  | nil => simp [allCompleted]
  | cons d rest ih =>
    rcases h d (by simp) with ⟨u, rfl, hc⟩
    simpa [allCompleted, hc] using ih (fun d hd => h d (List.mem_cons_of_mem _ hd))

theorem anyIncomplete_ok (deps : List (Task ⊕ String))
    (hobj : ∀ d ∈ deps, ∃ u, d = Sum.inl u) :
    anyIncomplete deps = .ok (hasIncompleteB deps) := by
  induction deps with
  | nil => simp [anyIncomplete, hasIncompleteB]
  | cons d rest ih =>
    rcases hobj d (by simp) with ⟨u, rfl⟩
    by_cases hc : u.data.completed
    · simpa [anyIncomplete, hasIncompleteB, hc] using
        ih (fun d hd => hobj d (List.mem_cons_of_mem _ hd))
    · simp [anyIncomplete, hasIncompleteB, hc]

theorem completeCheck_ok (t : Task)
    (h : ∀ d ∈ t.dependencies, ∃ u, d = Sum.inl u ∧ u.data.completed = true) :
    t.completeCheck = .ok () := by
  unfold Task.completeCheck
  by_cases he : t.dependencies.isEmpty
  · simp [he]
  · simp [he, allCompleted_true t.dependencies h]

theorem complete_eq_body (t : Task) (now : DateTime) (genId : String)
    (h : ∀ d ∈ t.dependencies, ∃ u, d = Sum.inl u ∧ u.data.completed = true) :
    t.complete now genId = t.completeBody now genId := by
  unfold Task.complete
  rw [completeCheck_ok t h]

theorem completeBody_fst (t : Task) (now : DateTime) (genId : String) :
    (t.completeBody now genId).fst =
      Task.mk
        { t.data with completed := true, status := Sum.inl Status.COMPLETED,
                      updated_at := Sum.inl now }
        t.dependencies := rfl

/-- Claim C3: a task with at least one incomplete dependency (all
dependency entries being task objects) fails to complete with the
dependency `ValueError` and is returned entirely unchanged. -/
theorem complete_incomplete_dependency_fails (t : Task) (now : DateTime) (genId : String)
    (hobj : ∀ d ∈ t.dependencies, ∃ u, d = Sum.inl u)
    (hbad : ∃ u, Sum.inl u ∈ t.dependencies ∧ u.data.completed = false) :
    t.complete now genId = (t, .error DependencyError) := by
  have hne : t.dependencies.isEmpty = false := by
    rcases hbad with ⟨u, hu, _⟩
    rcases h : t.dependencies with _ | _
    · rw [h] at hu; simp at hu
    · simp
  unfold Task.complete Task.completeCheck
  rw [hne, allCompleted_false t.dependencies hobj hbad]
  rfl

theorem complete_incomplete_dependency_fails_holds :
    tBlockedW.complete 9 "g" = (tBlockedW, .error DependencyError) :=
  complete_incomplete_dependency_fails tBlockedW 9 "g"
    (by
      intro d hd
      rw [show tBlockedW.dependencies = [Sum.inl tC7, Sum.inl depOpenW] from rfl] at hd
      rcases List.mem_cons.mp hd with h | h
      · exact ⟨tC7, h⟩
      · rcases List.mem_cons.mp h with h2 | h2
        · exact ⟨depOpenW, h2⟩
        · simp at h2)
    ⟨depOpenW, by
      rw [show tBlockedW.dependencies = [Sum.inl tC7, Sum.inl depOpenW] from rfl]
      simp, rfl⟩

/-- Claim C4: completing a task with all (object) dependencies completed,
`repeat_behavior = {interval: i, end_date: None}` and `due_date = D` marks
the task completed and returns a follow-up task with the same
title/notes/urgent/repeat_behavior, due date `D + i`, no dependencies, the
freshly drawn id, and status `ACTIVE`. -/
theorem complete_recurrence_spawns_task (t : Task) (now : DateTime) (genId : String)
    (i : Timedelta) (D : DateTime)
    (hdep : ∀ d ∈ t.dependencies, ∃ u, d = Sum.inl u ∧ u.data.completed = true)
    (hrb : t.data.repeat_behavior = some { interval := i, end_date := none })
    (hdue : t.data.due_date = some (Sum.inl D)) :
    (t.complete now genId).fst.data.completed = true ∧
    (t.complete now genId).fst.data.status = Sum.inl Status.COMPLETED ∧
    ∃ nt, (t.complete now genId).snd = .ok (some nt) ∧
      nt.data.title = t.data.title ∧ nt.data.notes = t.data.notes ∧
      nt.data.urgent = t.data.urgent ∧
      nt.data.repeat_behavior = t.data.repeat_behavior ∧
      nt.data.due_date = some (Sum.inl (D + i)) ∧
      nt.dependencies = [] ∧
      nt.data.id = genId ∧ (genId ≠ t.data.id → nt.data.id ≠ t.data.id) ∧
      nt.data.status = Sum.inl Status.ACTIVE ∧
      nt.data.completed = false := by
  rw [complete_eq_body t now genId hdep]
  refine ⟨rfl, rfl, ?_⟩
  have houtcome : t.completeOutcome now genId =
      .ok (some (Task.init t.data.title t.data.notes (some (Sum.inl (D + i)))
        t.data.urgent (some { interval := i, end_date := none }) (some []) false
        (Sum.inl Status.ACTIVE) none none none genId now)) := by
    unfold Task.completeOutcome
    rw [hrb, hdue]
    rfl
  refine ⟨_, houtcome, rfl, rfl, rfl, hrb.symm, rfl, rfl, rfl, fun h => h, rfl, rfl⟩

theorem complete_recurrence_spawns_task_holds :
    ∃ nt,
      (tWeeklyW.complete 9 "fresh-id").snd = .ok (some nt) ∧
      nt.data.due_date = some (Sum.inl 17) ∧
      nt.data.id = "fresh-id" ∧ nt.dependencies = [] := by
  rcases complete_recurrence_spawns_task tWeeklyW 9 "fresh-id" 7 10
      (by intro d hd; rw [show tWeeklyW.dependencies = [] from rfl] at hd; simp at hd)
      rfl rfl
    with ⟨_, _, nt, hsnd, _, _, _, _, hd, hdeps, hid, _, _, _⟩
  refine ⟨nt, hsnd, ?_, hid, hdeps⟩
  rw [hd]
  norm_num

/-- Claim C5: with `end_date` set and `next_due_date = due_date + interval`
strictly past it, `complete()` (dependencies all complete) returns `None`,
spawning nothing, while the task itself is still marked completed. -/
theorem complete_recurrence_past_end_date (t : Task) (now : DateTime) (genId : String)
    (i : Timedelta) (D ed : DateTime)
    (hdep : ∀ d ∈ t.dependencies, ∃ u, d = Sum.inl u ∧ u.data.completed = true)
    (hrb : t.data.repeat_behavior = some { interval := i, end_date := some ed })
    (hdue : t.data.due_date = some (Sum.inl D))
    (hgt : ed < D + i) :
    (t.complete now genId).snd = .ok none ∧
    (t.complete now genId).fst.data.completed = true ∧
    (t.complete now genId).fst.data.status = Sum.inl Status.COMPLETED := by
  rw [complete_eq_body t now genId hdep]
  refine ⟨?_, rfl, rfl⟩
  show t.completeOutcome now genId = .ok none
  unfold Task.completeOutcome
  rw [hrb, hdue]
  simp [nextDueDate, TimeVal.truthy, not_le.mpr hgt]

theorem complete_recurrence_past_end_date_holds :
    (tEndingW.complete 9 "g").snd = .ok none ∧
    (tEndingW.complete 9 "g").fst.data.completed = true := by
  have h := complete_recurrence_past_end_date tEndingW 9 "g" 7 10 12
    (by intro d hd; rw [show tEndingW.dependencies = [] from rfl] at hd; simp at hd)
    rfl rfl (by norm_num)
  exact ⟨h.1, h.2.1⟩

/-- Claim C9: with dependencies satisfied, a recurrence rule whose
`end_date` is set, and no due date, `complete()` raises the
`None <= end_date` `TypeError` only after the task was already mutated:
the returned state has `completed=True`, `status=COMPLETED` and a
refreshed `updated_at`, so the failure is not atomic. -/
theorem complete_no_due_date_raises_after_mutation (t : Task) (now : DateTime)
    (genId : String) (i : Timedelta) (ed : DateTime)
    (hdep : ∀ d ∈ t.dependencies, ∃ u, d = Sum.inl u ∧ u.data.completed = true)
    (hrb : t.data.repeat_behavior = some { interval := i, end_date := some ed })
    (hdue : t.data.due_date = none) :
    (t.complete now genId).snd = .error NoneDatetimeCompareError ∧
    (t.complete now genId).fst.data.completed = true ∧
    (t.complete now genId).fst.data.status = Sum.inl Status.COMPLETED ∧
    (t.complete now genId).fst.data.updated_at = Sum.inl now := by
  rw [complete_eq_body t now genId hdep]
  refine ⟨?_, rfl, rfl, rfl⟩
  show t.completeOutcome now genId = .error NoneDatetimeCompareError
  unfold Task.completeOutcome
  rw [hrb, hdue]
  rfl

theorem complete_no_due_date_raises_after_mutation_holds :
    (tNoDueW.complete 9 "g").snd = .error NoneDatetimeCompareError ∧
    (tNoDueW.complete 9 "g").fst.data.completed = true ∧
    (tNoDueW.complete 9 "g").fst.data.updated_at = Sum.inl 9 := by
  have h := complete_no_due_date_raises_after_mutation tNoDueW 9 "g" 7 12
    (by intro d hd; rw [show tNoDueW.dependencies = [] from rfl] at hd; simp at hd)
    rfl rfl
  exact ⟨h.1, h.2.1, h.2.2.2⟩

theorem hasIncompleteB_iff (deps : List (Task ⊕ String)) :
    hasIncompleteB deps = true ↔
      ∃ u, Sum.inl u ∈ deps ∧ u.data.completed = false := by
  rw [hasIncompleteB, List.any_eq_true]
  constructor
  · rintro ⟨d, hd, hmatch⟩
    rcases d with u | s
    · refine ⟨u, hd, ?_⟩
      simpa using hmatch
    · simp at hmatch
  · rintro ⟨u, hu, hf⟩
    exact ⟨Sum.inl u, hu, by simp [hf]⟩

/-- Claim C6: `defer()` (on a task whose dependency entries are all task
objects) succeeds, sets `status=DEFERRED` iff some dependency is
incomplete and `status=ACTIVE` otherwise (in particular on an empty
dependency list), refreshes `updated_at`, and leaves `completed` alone. -/
theorem defer_status_iff_incomplete_dependency (t : Task) (now : DateTime)
    (hobj : ∀ d ∈ t.dependencies, ∃ u, d = Sum.inl u) :
    (t.defer now).snd = none ∧
    ((t.defer now).fst.data.status = Sum.inl Status.DEFERRED ↔
      ∃ u, Sum.inl u ∈ t.dependencies ∧ u.data.completed = false) ∧
    ((¬ ∃ u, Sum.inl u ∈ t.dependencies ∧ u.data.completed = false) →
      (t.defer now).fst.data.status = Sum.inl Status.ACTIVE) ∧
    (t.defer now).fst.data.updated_at = Sum.inl now ∧
    (t.defer now).fst.data.completed = t.data.completed := by
  unfold Task.defer
  rw [anyIncomplete_ok t.dependencies hobj]
  rw [← hasIncompleteB_iff]
  cases hb : hasIncompleteB t.dependencies <;>
    simp [hb, Task.data]

theorem defer_status_iff_incomplete_dependency_holds :
    (tBlockedW.defer 5).snd = none ∧
    (tBlockedW.defer 5).fst.data.status = Sum.inl Status.DEFERRED ∧
    (depOpenW.defer 5).fst.data.status = Sum.inl Status.ACTIVE := by
  have h1 := defer_status_iff_incomplete_dependency tBlockedW 5
    (by
      intro d hd
      rw [show tBlockedW.dependencies = [Sum.inl tC7, Sum.inl depOpenW] from rfl] at hd
      rcases List.mem_cons.mp hd with h | h
      · exact ⟨tC7, h⟩
      · rcases List.mem_cons.mp h with h2 | h2
        · exact ⟨depOpenW, h2⟩
        · simp at h2)
  have h2 := defer_status_iff_incomplete_dependency depOpenW 5
    (by
      intro d hd
      rw [show depOpenW.dependencies = [] from rfl] at hd
      simp at hd)
  refine ⟨h1.1, h1.2.1.mpr ⟨depOpenW, ?_, rfl⟩, h2.2.2.1 ?_⟩
  · rw [show tBlockedW.dependencies = [Sum.inl tC7, Sum.inl depOpenW] from rfl]
    simp
  · rintro ⟨u, hu, _⟩
    rw [show depOpenW.dependencies = [] from rfl] at hu
    simp at hu

/-- Counterexample to claim C7: the invariant `completed == (status ==
COMPLETED)` is not preserved by every operation — deferring an
already-completed task succeeds and leaves `completed=True` with
`status=ACTIVE`. -/
theorem defer_completed_breaks_invariant :
    tC7.invariant = true ∧ (tC7.defer 5).snd = none ∧
    (tC7.defer 5).fst.invariant = false ∧
    (tC7.defer 5).fst.data.completed = true := by decide

/-- Claim C7 as amended: `complete()` always preserves the invariant (even
on its non-atomic error paths), and `defer()` preserves it for tasks that
are not completed; deferring a completed task is the one violation. -/
theorem invariant_preservation_amended (t : Task) (now : DateTime) (genId : String)
    (h : t.invariant = true) :
    (t.complete now genId).fst.invariant = true ∧
    (t.data.completed = false → (t.defer now).fst.invariant = true) := by
  constructor
  · unfold Task.complete
    cases hc : t.completeCheck with
    | error e => exact h
    | ok _ => rfl
  · intro hfalse
    unfold Task.defer
    cases ha : anyIncomplete t.dependencies with
    | error e => exact h
    | ok b =>
      cases b
      all_goals
        simp [Task.invariant, Task.data, statusIsCompletedB]
        exact hfalse

theorem invariant_preservation_amended_holds :
    (tC7.complete 5 "g").fst.invariant = true ∧
    (depOpenW.defer 5).fst.invariant = true := by
  have h1 := invariant_preservation_amended tC7 5 "g" (by decide)
  have h2 := invariant_preservation_amended depOpenW 5 "g" (by decide)
  exact ⟨h1.1, h2.2 (by decide)⟩

/-- Claim C8: `add_project` fails with the duplicate-title `ValueError`
(database unchanged) exactly when some existing project has the same title,
case-sensitively; otherwise it appends the project. -/
theorem add_project_duplicate_title (db : DataBase) (project : Project) :
    ((∃ q ∈ db.projects, q.title = project.title) →
      db.add_project project = (db, some (DuplicateTitleError project.title))) ∧
    ((¬ ∃ q ∈ db.projects, q.title = project.title) →
      db.add_project project = ({ db with projects := db.projects ++ [project] }, none)) := by
  have hiff : (db.projects.any (fun proj => proj.title == project.title)) = true ↔
      ∃ q ∈ db.projects, q.title = project.title := by
    rw [List.any_eq_true]
    constructor
    · rintro ⟨q, hq, hb⟩
      exact ⟨q, hq, by simpa using hb⟩
    · rintro ⟨q, hq, he⟩
      exact ⟨q, hq, by simpa using he⟩
  constructor
  · intro h
    unfold DataBase.add_project
    rw [if_pos (hiff.mpr h)]
  · intro h
    unfold DataBase.add_project
    rw [if_neg (fun hb => h (hiff.mp hb))]

theorem add_project_duplicate_title_holds :
    ((DataBase.init "i" 0).add_project projInboxW).snd
        = some (DuplicateTitleError "Inbox") ∧
    ((DataBase.init "i" 0).add_project projWorkW).snd = none := by
  have h1 := (add_project_duplicate_title (DataBase.init "i" 0) projInboxW).1
    (by exact ⟨Project.init "Inbox" (some "Default project for unassigned tasks.")
      none none false none none "i" 0, by simp [DataBase.init], rfl⟩)
  have h2 := (add_project_duplicate_title (DataBase.init "i" 0) projWorkW).2
    (by
      rintro ⟨q, hq, he⟩
      simp [DataBase.init] at hq
      rw [hq] at he
      exact absurd he (by decide))
  rw [h1, h2]
  exact ⟨rfl, rfl⟩

theorem depIds_ok (deps : List (Task ⊕ String)) (h : deps.all Sum.isLeft = true) :
    depIds deps = .ok (depIdsOf deps) := by
  induction deps with
  | nil => simp [depIds, depIdsOf]
  | cons d rest ih =>
    rw [List.all_cons, Bool.and_eq_true] at h
    rcases d with u | s
    · simp [depIds, depIdsOf, ih h.2]
    · simp at h

theorem statusAttrValue_ok (sv : StatusVal) (h : sv.isLeft = true) :
    statusAttrValue sv = .ok (statusValStr sv) := by
  rcases sv with s | s
  · rfl
  · simp at h

theorem to_dict_ok (t : Task) (hs : t.data.status.isLeft = true)
    (hdeps : t.dependencies.all Sum.isLeft = true) :
    t.to_dict = .ok (taskDictOf t) := by
  unfold Task.to_dict
  rw [statusAttrValue_ok _ hs, depIds_ok _ hdeps]
  rfl

theorem pyValListToJson_strs (ids : List String) :
    pyValListToJson (ids.map .str) = .ok (ids.map Json.str) := by
  induction ids with
  | nil => simp [pyValListToJson]
  | cons s rest ih => simp [pyValListToJson, pyValToJson, ih]

theorem dict_serializes (t : Task) (hrb : t.data.repeat_behavior = none) :
    pyValToJson (.dict (taskDictOf t)) = .ok (taskJsonOf t) := by
  unfold taskDictOf taskJsonOf
  rw [hrb]
  rcases t.data.notes with _ | s <;> rcases t.data.due_date with _ | v
  · simp [pyValToJson, pyValFieldsToJson, rbToPyVal, pyValListToJson_strs]
  · cases hv : v.truthy <;>
      simp [pyValToJson, pyValFieldsToJson, rbToPyVal, pyValListToJson_strs, hv]
  · simp [pyValToJson, pyValFieldsToJson, rbToPyVal, pyValListToJson_strs]
  · cases hv : v.truthy <;>
      simp [pyValToJson, pyValFieldsToJson, rbToPyVal, pyValListToJson_strs, hv]

theorem dict_rb_some_error (t : Task) (rb' : RepeatBehavior)
    (hrb : t.data.repeat_behavior = some rb') :
    pyValToJson (.dict (taskDictOf t)) =
      .error (.typeError "Object of type timedelta is not JSON serializable") := by
  unfold taskDictOf
  rw [hrb]
  rcases t.data.notes with _ | s <;> rcases t.data.due_date with _ | v
  · simp [pyValToJson, pyValFieldsToJson, rbToPyVal]
  · cases hv : v.truthy <;>
      simp [pyValToJson, pyValFieldsToJson, rbToPyVal, hv]
  · simp [pyValToJson, pyValFieldsToJson, rbToPyVal]
  · cases hv : v.truthy <;>
      simp [pyValToJson, pyValFieldsToJson, rbToPyVal, hv]

theorem tasksToDicts_ok (ts : List Task)
    (h : ∀ t ∈ ts, t.data.status.isLeft = true ∧ t.dependencies.all Sum.isLeft = true) :
    tasksToDicts ts = .ok (ts.map fun t => PyVal.dict (taskDictOf t)) := by
  induction ts with
  | nil => simp [tasksToDicts]
  | cons t rest ih =>
    rcases h t (by simp) with ⟨hs, hd⟩
    simp [tasksToDicts, to_dict_ok t hs hd,
      ih (fun u hu => h u (List.mem_cons_of_mem _ hu))]

theorem pyValListToJson_taskDicts_error (ts : List Task)
    (hex : ∃ t ∈ ts, t.data.repeat_behavior ≠ none) :
    pyValListToJson (ts.map fun t => PyVal.dict (taskDictOf t)) =
      .error (.typeError "Object of type timedelta is not JSON serializable") := by
  induction ts with
  | nil => simp at hex
  | cons t rest ih =>
    cases hrb : t.data.repeat_behavior with
    | some rb' => simp [pyValListToJson, dict_rb_some_error t rb' hrb]
    | none =>
      have hex' : ∃ u ∈ rest, u.data.repeat_behavior ≠ none := by
        rcases hex with ⟨u, hu, hne⟩
        rcases List.mem_cons.mp hu with h | h
        · rw [h] at hne
          exact absurd hrb hne
        · exact ⟨u, h, hne⟩
      simp [pyValListToJson, dict_serializes t hrb, ih hex']

theorem pyValListToJson_taskDicts_ok (ts : List Task)
    (hrb : ∀ t ∈ ts, t.data.repeat_behavior = none) :
    pyValListToJson (ts.map fun t => PyVal.dict (taskDictOf t)) =
      .ok (ts.map taskJsonOf) := by
  induction ts with
  | nil => simp [pyValListToJson]
  | cons t rest ih =>
    simp [pyValListToJson, dict_serializes t (hrb t (by simp)),
      ih (fun u hu => hrb u (List.mem_cons_of_mem _ hu))]

theorem tasksFileJson_error (ts : List Task)
    (h : ∀ t ∈ ts, t.data.status.isLeft = true ∧ t.dependencies.all Sum.isLeft = true)
    (hex : ∃ t ∈ ts, t.data.repeat_behavior ≠ none) :
    tasksFileJson ts =
      .error (.typeError "Object of type timedelta is not JSON serializable") := by
  unfold tasksFileJson
  rw [tasksToDicts_ok ts h]
  simp [pyValToJson, pyValListToJson_taskDicts_error ts hex]

theorem tasksFileJson_ok (ts : List Task)
    (h : ∀ t ∈ ts, t.data.status.isLeft = true ∧ t.dependencies.all Sum.isLeft = true)
    (hrb : ∀ t ∈ ts, t.data.repeat_behavior = none) :
    tasksFileJson ts = .ok (.arr (ts.map taskJsonOf)) := by
  unfold tasksFileJson
  rw [tasksToDicts_ok ts h]
  simp [pyValToJson, pyValListToJson_taskDicts_ok ts hrb]

/-- Claim C10: saving a database in which some task still carries a
`repeat_behavior` (whose `interval` is a raw timedelta) raises a
`TypeError` from `json.dump`, which the `except IOError` handler does not
catch, so it escapes to the caller.  (The other tasks are ordinary
in-memory tasks, so nothing fails before the dump reaches the timedelta.) -/
theorem save_timedelta_raises_typeerror (db : DataBase)
    (hwf : ∀ t ∈ db.tasks, t.data.status.isLeft = true ∧ t.dependencies.all Sum.isLeft = true)
    (hex : ∃ t ∈ db.tasks, t.data.repeat_behavior ≠ none) :
    db.save = .error (.typeError "Object of type timedelta is not JSON serializable") := by
  unfold DataBase.save
  rw [tasksFileJson_error db.tasks hwf hex]

theorem save_timedelta_raises_typeerror_holds :
    dbC10.save = .error (.typeError "Object of type timedelta is not JSON serializable") :=
  save_timedelta_raises_typeerror dbC10 (by decide) (by decide)

/-- Counterexample to claim C2: `load` is not exception-free.  Loading the
very files an empty database's `save` wrote raises the duplicate-title
`ValueError` to the caller, because the saved Inbox record collides with
the fresh database's own Inbox and `except (IOError, JSONDecodeError)`
catches neither `ValueError` nor `TypeError`. -/
theorem load_raises_on_own_save_output :
    dbC2.save.toOption.isSome = true ∧
    ((DataBase.init "inbox2" 1).load (.ok savedC2.1) (.ok savedC2.2)
        (fun _ => "g") 1).snd = some (DuplicateTitleError "Inbox") :=
  ⟨rfl, rfl⟩

/-- Claim C2 as amended: read failures (missing file, malformed JSON) are
caught per file and are non-fatal, and when the projects read fails, `load`
degrades to exactly its tasks phase (a partial load keeps whatever loaded);
but exceptions raised while rebuilding objects from parsed JSON —
`TypeError` from bad record shapes, `ValueError` from duplicate project
titles (including the always-saved "Inbox") — escape to the caller. -/
theorem load_read_failures_nonfatal (db : DataBase) (tf pf : FileRead)
    (fresh : Nat → String) (now : DateTime) :
    ((tf = .missing ∨ tf = .malformed) → db.loadTasksFile tf fresh now = (db, none)) ∧
    ((pf = .missing ∨ pf = .malformed) →
      db.load tf pf fresh now = db.loadTasksFile tf fresh now) := by
  constructor
  · rintro (rfl | rfl) <;> rfl
  · rintro (rfl | rfl) <;>
    · unfold DataBase.load
      rcases hx : db.loadTasksFile tf fresh now with ⟨d, _ | e⟩
      · rfl
      · rfl

theorem load_read_failures_nonfatal_holds :
    dbC2.loadTasksFile .malformed (fun _ => "g") 0 = (dbC2, none) ∧
    dbC2.load (.ok savedC2.1) .missing (fun _ => "g") 0
      = dbC2.loadTasksFile (.ok savedC2.1) (fun _ => "g") 0 :=
  ⟨(load_read_failures_nonfatal dbC2 .malformed .missing (fun _ => "g") 0).1 (Or.inr rfl),
   (load_read_failures_nonfatal dbC2 (.ok savedC2.1) .missing (fun _ => "g") 0).2 (Or.inl rfl)⟩

theorem parseIdList_strs (ids : List String) :
    parseIdList (ids.map Json.str) = .ok (ids.map Sum.inr) := by
  induction ids with
  | nil => simp [parseIdList]
  | cons s rest ih => simp [parseIdList, ih]

theorem taskFromJson_record (idv title : String) (notesJ dueJ : Json)
    (c u : Bool) (sv : String) (ids : List String) (caS uaS : String)
    (g : String) (n : DateTime)
    (hnotes : notesJ = .null ∨ ∃ s, notesJ = .str s)
    (hdue : dueJ = .null ∨ ∃ s, dueJ = .str s)
    (hidne : (idv == "") = false) :
    (taskFromJson
      (.obj [("id", .str idv), ("title", .str title), ("notes", notesJ),
             ("due_date", dueJ), ("completed", .bool c), ("status", .str sv),
             ("urgent", .bool u), ("repeat_behavior", .null),
             ("dependencies", .arr (ids.map .str)),
             ("created_at", .str caS), ("updated_at", .str uaS)]) g n).map
        (fun t' => (t'.data.id, t'.data.title, t'.data.status))
      = .ok (idv, title, Sum.inr sv) := by
  rcases hnotes with rfl | ⟨s1, rfl⟩ <;> rcases hdue with rfl | ⟨s2, rfl⟩ <;>
    simp [taskFromJson, jLookup, taskKeys, parseOptStr, parseOptTimeVal, parseBool,
      parseRB, parseStatusVal, parseDeps, parseIdList_strs, Task.init, Task.data,
      hidne, Except.map]

theorem taskFromJson_obs (t : Task) (g : String) (n : DateTime)
    (hid : t.data.id ≠ "") :
    (taskFromJson (taskJsonOf t) g n).map Task.obs = .ok (Task.loadedObs t) := by
  have hidne : (t.data.id == "") = false := by
    rw [beq_eq_false_iff_ne]
    exact hid
  unfold taskJsonOf Task.obs Task.loadedObs
  refine taskFromJson_record t.data.id t.data.title _ _ t.data.completed
    t.data.urgent (statusValStr t.data.status) (depIdsOf t.dependencies)
    (convert_to_str t.data.created_at) (convert_to_str t.data.updated_at) g n
    ?_ ?_ hidne
  · rcases t.data.notes with _ | s
    · exact Or.inl rfl
    · exact Or.inr ⟨s, rfl⟩
  · rcases t.data.due_date with _ | v
    · exact Or.inl rfl
    · cases hv : v.truthy
      · exact Or.inl (by simp [hv])
      · exact Or.inr ⟨convert_to_str v, by simp [hv]⟩

theorem add_task_none_tasks (db : DataBase) (t : Task) (now : DateTime) :
    (db.add_task t none now).tasks = db.tasks ++ [t] := rfl

theorem loadTaskRecords_obs (ts : List Task) (fresh : Nat → String) (now : DateTime)
    (hid : ∀ t ∈ ts, t.data.id ≠ "") :
    ∀ (db : DataBase) (k : Nat),
      ∃ db', DataBase.loadTaskRecords db (ts.map taskJsonOf) fresh now k = (db', none) ∧
        db'.tasks.map Task.obs = db.tasks.map Task.obs ++ ts.map Task.loadedObs := by
  induction ts with
  | nil =>
    intro db k
    exact ⟨db, rfl, by simp [DataBase.loadTaskRecords]⟩
  | cons t rest ih =>
    intro db k
    have hmap := taskFromJson_obs t (fresh k) now (hid t (by simp))
    rcases he : taskFromJson (taskJsonOf t) (fresh k) now with e | t'
    · rw [he] at hmap
      simp [Except.map] at hmap
    · rw [he] at hmap
      simp only [Except.map] at hmap
      have hobs : Task.obs t' = Task.loadedObs t := by
        injection hmap
      obtain ⟨db', hrec, hrest⟩ :=
        ih (fun u hu => hid u (List.mem_cons_of_mem _ hu)) (db.add_task t' none now) (k + 1)
      refine ⟨db', ?_, ?_⟩
      · simp [DataBase.loadTaskRecords, he, hrec]
      · rw [hrest, add_task_none_tasks]
        simp [hobs]

theorem add_project_fst_tasks (db : DataBase) (p : Project) :
    ((db.add_project p).fst).tasks = db.tasks := by
  unfold DataBase.add_project
  split <;> rfl

theorem loadProjectRecords_tasks (xs : List Json) (fresh : Nat → String) (now : DateTime) :
    ∀ (db : DataBase) (k : Nat),
      ((db.loadProjectRecords xs fresh now k).fst).tasks = db.tasks := by
  induction xs with
  | nil => intro db k; rfl
  | cons x rest ih =>
    intro db k
    unfold DataBase.loadProjectRecords
    rcases hpf : projectFromJson x (fresh k) now with e | p
    · rfl
    · dsimp only
      rcases hap : db.add_project p with ⟨db2, e2⟩
      have h2 : db2.tasks = db.tasks := by
        rw [show db2 = (db.add_project p).fst from by rw [hap]]
        exact add_project_fst_tasks db p
      rcases e2 with _ | e3
      · dsimp only
        rw [ih db2 (k + 1)]
        exact h2
      · exact h2

theorem loadProjectsFile_tasks (db : DataBase) (pf : FileRead)
    (fresh : Nat → String) (now : DateTime) :
    ((db.loadProjectsFile pf fresh now).fst).tasks = db.tasks := by
  rcases pf with _ | _ | j
  · rfl
  · rfl
  · rcases j with _ | b | s | nn | xs | fs
    · rfl
    · rfl
    · rfl
    · rfl
    · exact loadProjectRecords_tasks xs fresh now db 0
    · rfl

/-- Counterexample to claim C1: the status field does not round-trip as the
same value.  Saving a database and loading its files into a fresh database
keeps ids and titles, but every reloaded status is the plain string value
of the original enum member (`Sum.inr "ACTIVE"`), which is not equal to any
original status (`Sum.inl Status.ACTIVE`), so the set of statuses differs. -/
theorem roundtrip_status_not_preserved :
    dbC1.save.toOption.isSome = true ∧
    (Sum.inr "ACTIVE" : StatusVal) ∈ loadedC1.tasks.map (fun t => t.data.status) ∧
    (Sum.inr "ACTIVE" : StatusVal) ∉ dbC1.tasks.map (fun t => t.data.status) ∧
    loadedC1.tasks.map (fun t => t.data.id) = dbC1.tasks.map (fun t => t.data.id) ∧
    loadedC1.tasks.map (fun t => t.data.title) = dbC1.tasks.map (fun t => t.data.title) := by
  refine ⟨rfl, ?_, ?_, rfl, rfl⟩
  · show (Sum.inr "ACTIVE" : StatusVal) ∈
      [Sum.inr "ACTIVE", Sum.inr "COMPLETED"]
    simp
  · show (Sum.inr "ACTIVE" : StatusVal) ∉
      [(Sum.inl Status.ACTIVE : StatusVal), Sum.inl Status.COMPLETED]
    simp

/-- Claim C1 as amended: for a database of ordinary in-memory tasks (enum
statuses, object dependency references, no pending `repeat_behavior` — which
would make `save` raise, see C10 — and nonempty ids), `save` then `load`
into a fresh database reproduces the tasks' ids and titles exactly, and the
statuses up to representation: each loaded status is the original status's
string value, stored as a plain string rather than a `Status` member. -/
theorem roundtrip_ids_titles_status_values (db : DataBase) (tj pj : Json)
    (inboxId2 : String) (now2 : DateTime) (fresh : Nat → String) (now : DateTime)
    (hwf : ∀ t ∈ db.tasks, t.data.status.isLeft = true ∧ t.dependencies.all Sum.isLeft = true)
    (hrb : ∀ t ∈ db.tasks, t.data.repeat_behavior = none)
    (hid : ∀ t ∈ db.tasks, t.data.id ≠ "")
    (hsave : db.save = .ok (tj, pj)) :
    (((DataBase.init inboxId2 now2).load (.ok tj) (.ok pj) fresh now).fst).tasks.map Task.obs
      = db.tasks.map Task.loadedObs ∧
    (((DataBase.init inboxId2 now2).load (.ok tj) (.ok pj) fresh now).fst).tasks.map
        (fun t => t.data.id)
      = db.tasks.map (fun t => t.data.id) ∧
    (((DataBase.init inboxId2 now2).load (.ok tj) (.ok pj) fresh now).fst).tasks.map
        (fun t => t.data.title)
      = db.tasks.map (fun t => t.data.title) ∧
    (((DataBase.init inboxId2 now2).load (.ok tj) (.ok pj) fresh now).fst).tasks.map
        (fun t => t.data.status)
      = db.tasks.map (fun t => Sum.inr (statusValStr t.data.status)) := by
  have htf : tasksFileJson db.tasks = .ok (.arr (db.tasks.map taskJsonOf)) :=
    tasksFileJson_ok db.tasks hwf hrb
  unfold DataBase.save at hsave
  rw [htf] at hsave
  rcases hpf : projectsFileJson db.projects with e | pjv
  · rw [hpf] at hsave
    exact absurd hsave (by simp)
  · rw [hpf] at hsave
    simp only [Except.ok.injEq, Prod.mk.injEq] at hsave
    obtain ⟨htj, hpj⟩ := hsave
    obtain ⟨db', hrec, hobs⟩ :=
      loadTaskRecords_obs db.tasks fresh now hid (DataBase.init inboxId2 now2) 0
    have hload :
        ((DataBase.init inboxId2 now2).load (.ok tj) (.ok pj) fresh now).fst
          = (db'.loadProjectsFile (.ok pj) fresh now).fst := by
      rw [← htj]
      simp only [DataBase.load, DataBase.loadTasksFile]
      rw [hrec]
    have htasks :
        (((DataBase.init inboxId2 now2).load (.ok tj) (.ok pj) fresh now).fst).tasks
          = db'.tasks := by
      rw [hload]
      exact loadProjectsFile_tasks db' (.ok pj) fresh now
    have hobs0 :
        (((DataBase.init inboxId2 now2).load (.ok tj) (.ok pj) fresh now).fst).tasks.map Task.obs
          = db.tasks.map Task.loadedObs := by
      rw [htasks, hobs]
      simp [DataBase.init]
    refine ⟨hobs0, ?_, ?_, ?_⟩
    · have := congrArg (List.map (fun p => p.1)) hobs0
      simpa [List.map_map, Function.comp, Task.obs, Task.loadedObs] using this
    · have := congrArg (List.map (fun p : String × String × StatusVal => p.2.1)) hobs0
      simpa [List.map_map, Function.comp, Task.obs, Task.loadedObs] using this
    · have := congrArg (List.map (fun p : String × String × StatusVal => p.2.2)) hobs0
      simpa [List.map_map, Function.comp, Task.obs, Task.loadedObs] using this

theorem roundtrip_ids_titles_status_values_holds :
    loadedC1.tasks.map Task.obs = dbC1.tasks.map Task.loadedObs :=
  (roundtrip_ids_titles_status_values dbC1 savedC1.1 savedC1.2 "inbox2" 1
    (fun _ => "u") 1 (by decide) (by decide) (by decide) rfl).1

end Maestro
